import Mathlib

/-!
Shallow embedding of sturdy-websocket (src/src/index.ts, the SturdyWebSocket
class).  The class's private fields become the `State` record; every method
becomes a function `State → State × List Output`, where `Output` records the
externally observable effects (creating a raw socket, closing it, sending a
payload on the transport, dispatching a lifecycle event, scheduling a retry
timer, throwing).  Asynchronous callbacks — raw socket notifications, the
three timers, and resolutions of `shouldReconnect` promises — are driven by
an `Input` alphabet together with a `step` function; the run-to-completion
concurrency model of the source (each callback runs atomically) makes this
faithful.  Timer durations are tracked as rationals; the identity of a
`setTimeout` handle is abstracted to a Boolean flag for the two cancellable
timers (`connectTimeoutId`, `allClearTimeoutId`; the source stores at most
one live handle in each) and to a pending counter for the backoff timer of
`reestablishConnection`, whose handle the source never stores and therefore
can never cancel.  JS numbers for delays are modelled as `ℚ`;
`maxReconnectAttempts : Option ℕ` with `none` standing for the default
`Number.POSITIVE_INFINITY`.
-/

namespace SturdyWs

/-- Close events are opaque to the engine; only identity matters. -/
abbrev CloseEvt := ℕ

/-- Outbound payloads are opaque to the engine. -/
abbrev Data := ℕ

/-- Result shape of `options.shouldReconnect(closeEvent)`: either a
synchronous boolean or a promise (whose eventual boolean arrives later as a
`policyResolve` input). -/
inductive PolicyRet where
  | sync (b : Bool)
  | async
deriving DecidableEq, Repr

/-- The raw WebSocket handle, as far as the engine reads or writes it. -/
structure Handle where
  readyState : ℕ
  extensions : String
  protocol : String
  binaryType : String
deriving DecidableEq, Repr

/-- `Required<Options>` after defaulting (src/src/index.ts lines 463-473,
941-951).  `wsConstructor` is the external factory and has no data content
here; `debug` only controls logging and is omitted. -/
structure Options where
  allClearResetTime : ℚ
  connectTimeout : ℚ
  minReconnectDelay : ℚ
  maxReconnectDelay : ℚ
  maxReconnectAttempts : Option ℕ
  reconnectBackoffFactor : ℚ
  shouldReconnect : CloseEvt → PolicyRet

/-- The private fields of the `SturdyWebSocket` class (lines 525-538), plus
two bookkeeping fields for timers/promises the source leaves un-cancellable:
`pendingBackoff` counts un-fired `setTimeout(() => openNewWebSocket(), t)`
timers (line 815; the source never stores their ids), and `pendingShould`
holds the close events captured by outstanding `shouldReconnect` promises
(lines 770-780). -/
structure State where
  ws : Option Handle
  hasBeenOpened : Bool
  isClosed : Bool
  messageBuffer : List Data
  nextRetryTime : ℚ
  reconnectCount : ℕ
  allClearTimeoutId : Bool
  connectTimeoutId : Bool
  binaryTypeInternal : Option String
  lastKnownExtensions : String
  lastKnownProtocol : String
  pendingBackoff : ℕ
  pendingShould : List CloseEvt
deriving DecidableEq, Repr

/-- Event names dispatched through `dispatchEventOfType`. -/
inductive EvType where
  | openE
  | messageE
  | errorE
  | closeE
  | downE
  | reopenE
deriving DecidableEq, Repr

/-- Observable effects of one callback invocation. -/
inductive Output where
  | newSocket
  | wsClose (code : Option ℕ) (reason : Option String)
  | transportSend (d : Data)
  | dispatchEv (t : EvType) (payload : Option ℕ)
  | scheduleRetry (delay : ℚ)
  | throwClosed
deriving DecidableEq, Repr

/-- The asynchronous inputs driving the engine: raw socket callbacks for the
currently attached handle, timer firings, promise resolutions, and public
API calls. -/
inductive Input where
  | rawOpen
  | rawClose (e : CloseEvt)
  | rawMessage (m : ℕ)
  | rawError
  | connectTimeoutFire
  | allClearFire
  | backoffFire
  | policyResolve (i : ℕ) (b : Bool)
  | apiSend (d : Data)
  | apiClose (code : Option ℕ) (reason : Option String)
  | apiReconnect
deriving DecidableEq, Repr

/-- `clearConnectTimeout()` (lines 859-864). -/
def clearConnectTimeoutFn (s : State) : State :=
  { s with connectTimeoutId := false }

/-- `clearAllClearTimeout()` (lines 866-871). -/
def clearAllClearTimeoutFn (s : State) : State :=
  { s with allClearTimeoutId := false }

/-- `clearAllTimeouts()` (lines 854-857). -/
def clearAllTimeoutsFn (s : State) : State :=
  clearAllClearTimeoutFn (clearConnectTimeoutFn s)

/-- `shutdown()` (lines 833-837): mark permanently closed, cancel the two
cancellable timers, clear the buffer. -/
def shutdownFn (s : State) : State :=
  { clearAllTimeoutsFn s with isClosed := true, messageBuffer := [] }

/-- A freshly constructed raw WebSocket: CONNECTING, nothing negotiated. -/
def newHandle : Handle :=
  { readyState := 0, extensions := "", protocol := "", binaryType := "blob" }

/-- `openNewWebSocket()` (lines 682-701): guarded by `isClosed`; creates a
fresh handle, wires its callbacks (implicit: raw inputs act on the current
handle), starts the connect-timeout watchdog. -/
def openNewWebSocketFn (s : State) : State × List Output :=
  if s.isClosed then (s, [])
  else ({ s with ws := some newHandle, connectTimeoutId := true }, [.newSocket])

/-- `disposeSocket(closeCode?, reason?)` (lines 839-852): neutralize the
handle's callbacks (implicit: once `ws := none`, raw inputs are no-ops),
close it, drop it. -/
def disposeSocketFn (code : Option ℕ) (reason : Option String) (s : State) :
    State × List Output :=
  match s.ws with
  | none => (s, [])
  | some _ => ({ s with ws := none }, [.wsClose code reason])

/-- `send(data)` (lines 623-629): pass through when a live OPEN socket
exists, otherwise buffer. -/
def sendFn (d : Data) (s : State) : State × List Output :=
  match s.ws with
  | some h =>
      if h.readyState = 1 then (s, [.transportSend d])
      else ({ s with messageBuffer := s.messageBuffer ++ [d] }, [])
  | none => ({ s with messageBuffer := s.messageBuffer ++ [d] }, [])

/-- `this.messageBuffer.forEach(message => this.send(message))` (line 721):
re-entrant sends, threading the state. -/
def flushFn : List Data → State → State × List Output
  | [], s => (s, [])
  | d :: ds, s =>
      let p := sendFn d s
      let q := flushFn ds p.1
      (q.1, p.2 ++ q.2)

/-- `handleOpen(event)` (lines 703-733). -/
def handleOpenFn (s : State) : State × List Output :=
  match s.ws with
  | none => (s, [])
  | some h =>
      if s.isClosed then (s, [])
      else
        let s1 :=
          match s.binaryTypeInternal with
          | some b => { s with ws := some { h with binaryType := b } }
          | none => { s with binaryTypeInternal := some h.binaryType }
        let s2 := clearConnectTimeoutFn s1
        let p3 : State × List Output :=
          if s2.hasBeenOpened then (s2, [.dispatchEv .reopenE none])
          else ({ s2 with hasBeenOpened := true }, [.dispatchEv .openE none])
        let p4 := flushFn p3.1.messageBuffer p3.1
        let s5 := { p4.1 with messageBuffer := [] }
        let s6 := { s5 with allClearTimeoutId := true }
        (s6, p3.2 ++ p4.2)

/-- `handleMessage(event)` (lines 735-740). -/
def handleMessageFn (m : ℕ) (s : State) : State × List Output :=
  if s.isClosed then (s, []) else (s, [.dispatchEv .messageE (some m)])

/-- `handleError(event)` (lines 783-786): purely observational, no guard. -/
def handleErrorFn (s : State) : State × List Output :=
  (s, [.dispatchEv .errorE none])

/-- `Math.max` on two (non-NaN) numbers. -/
def ratMax (a b : ℚ) : ℚ :=
  if a ≤ b then b else a

/-- `Math.min` on two (non-NaN) numbers. -/
def ratMin (a b : ℚ) : ℚ :=
  if a ≤ b then a else b

/-- The clamped-product update of `nextRetryTime` inside
`reestablishConnection` (lines 808-814). -/
def clampNext (o : Options) (t : ℚ) : ℚ :=
  ratMax o.minReconnectDelay
    (ratMin (t * o.reconnectBackoffFactor) o.maxReconnectDelay)

/-- `reestablishConnection()` (lines 800-820): increment the attempt count,
schedule the next open after the current `nextRetryTime`, update
`nextRetryTime` to the clamped product. -/
def reestablishConnectionFn (o : Options) (s : State) : State × List Output :=
  ({ s with
      reconnectCount := s.reconnectCount + 1,
      nextRetryTime := clampNext o s.nextRetryTime,
      pendingBackoff := s.pendingBackoff + 1 },
   [.scheduleRetry s.nextRetryTime])

/-- `stopReconnecting(event, debugReason)` (lines 822-831): shut down, then
dispatch `close` only when a real close event exists. -/
def stopReconnectingFn (e : Option CloseEvt) (s : State) : State × List Output :=
  (shutdownFn s,
   match e with
   | some ev => [.dispatchEv .closeE (some ev)]
   | none => [])

/-- `handleWillReconnect(willReconnect, event, denialReason)`
(lines 788-798). -/
def handleWillReconnectFn (o : Options) (willReconnect : Bool)
    (e : Option CloseEvt) (s : State) : State × List Output :=
  if willReconnect then reestablishConnectionFn o s else stopReconnectingFn e s

/-- The test `this.reconnectCount >= maxReconnectAttempts` (line 755);
`none` models `Infinity`, against which no finite count compares `>=`. -/
def reachedMax (o : Options) (n : ℕ) : Bool :=
  match o.maxReconnectAttempts with
  | none => false
  | some m => m ≤ n

/-- `handleClose(event)` (lines 742-781).  `e = none` models the synthetic
`handleClose(undefined)` calls from the connect-timeout callback and from
`reconnect()`; note `const willReconnect = !event || shouldReconnect(event)`
(line 762) short-circuits past the policy when the event is absent. -/
def handleCloseFn (o : Options) (e : Option CloseEvt) (s : State) :
    State × List Output :=
  if s.isClosed then (s, [])
  else
    let s1 := clearAllClearTimeoutFn (clearConnectTimeoutFn s)
    let s2 :=
      match s1.ws with
      | some h =>
          { s1 with
              lastKnownExtensions := h.extensions,
              lastKnownProtocol := h.protocol,
              ws := none }
      | none => s1
    let downOut : Output := .dispatchEv .downE e
    if reachedMax o s2.reconnectCount then
      let p := stopReconnectingFn e s2
      (p.1, downOut :: p.2)
    else
      match e with
      | none =>
          let p := handleWillReconnectFn o true none s2
          (p.1, downOut :: p.2)
      | some ev =>
          match o.shouldReconnect ev with
          | .sync b =>
              let p := handleWillReconnectFn o b (some ev) s2
              (p.1, downOut :: p.2)
          | .async =>
              ({ s2 with pendingShould := s2.pendingShould ++ [ev] }, [downOut])

/-- `close(code?, reason?)` (lines 617-621). -/
def closeFn (code : Option ℕ) (reason : Option String) (s : State) :
    State × List Output :=
  let p := disposeSocketFn code reason s
  (shutdownFn p.1, p.2)

/-- `reconnect()` (lines 631-639): throws on a permanently closed socket;
otherwise detaches the live handle with the synthetic client-requested
reason and re-enters the close-handling path with no close event. -/
def reconnectFn (o : Options) (s : State) : State × List Output :=
  if s.isClosed then (s, [.throwClosed])
  else
    let p := disposeSocketFn (some 1000) (some "Client requested reconnect.") s
    let q := handleCloseFn o none p.1
    (q.1, p.2 ++ q.2)

/-- The connect-timeout callback (lines 693-699): clear the watchdog,
dispose the stalled handle, synthesize `handleClose(undefined)`. -/
def connectTimeoutCb (o : Options) (s : State) : State × List Output :=
  let s1 := clearConnectTimeoutFn s
  let p := disposeSocketFn none none s1
  let q := handleCloseFn o none p.1
  (q.1, p.2 ++ q.2)

/-- The all-clear callback (lines 723-732): reset the retry state after a
sustained open period. -/
def allClearCb (s : State) : State × List Output :=
  ({ clearAllClearTimeoutFn s with nextRetryTime := 0, reconnectCount := 0 }, [])

/-- The browser marks the raw socket OPEN before firing its `open`
callback. -/
def setOpenReadyState (s : State) : State :=
  { s with ws := s.ws.map fun h => { h with readyState := 1 } }

/-- One atomic callback invocation.  Raw socket inputs act only when a
handle is currently attached (a disposed handle's callbacks are neutralized,
and a handle dropped by `handleClose` has already fired its one close);
timer inputs act only when the corresponding timer is scheduled
(`clearTimeout` semantics); a promise resolution acts only on an outstanding
promise, and conveys the captured close event. -/
def step (o : Options) (s : State) : Input → State × List Output
  | .rawOpen =>
      match s.ws with
      | none => (s, [])
      | some _ => handleOpenFn (setOpenReadyState s)
  | .rawClose e =>
      match s.ws with
      | none => (s, [])
      | some _ => handleCloseFn o (some e) s
  | .rawMessage m =>
      match s.ws with
      | none => (s, [])
      | some _ => handleMessageFn m s
  | .rawError =>
      match s.ws with
      | none => (s, [])
      | some _ => handleErrorFn s
  | .connectTimeoutFire =>
      if s.connectTimeoutId then connectTimeoutCb o s else (s, [])
  | .allClearFire =>
      if s.allClearTimeoutId then allClearCb s else (s, [])
  | .backoffFire =>
      if s.pendingBackoff = 0 then (s, [])
      else openNewWebSocketFn { s with pendingBackoff := s.pendingBackoff - 1 }
  | .policyResolve i b =>
      match s.pendingShould.get? i with
      | none => (s, [])
      | some ev =>
          let s1 := { s with pendingShould := s.pendingShould.eraseIdx i }
          if s1.isClosed then (s1, [])
          else handleWillReconnectFn o b (some ev) s1
  | .apiSend d => sendFn d s
  | .apiClose code reason => closeFn code reason s
  | .apiReconnect => reconnectFn o s

/-- Field initializers of the class (lines 527-538). -/
def initialState : State :=
  { ws := none
    hasBeenOpened := false
    isClosed := false
    messageBuffer := []
    nextRetryTime := 0
    reconnectCount := 0
    allClearTimeoutId := false
    connectTimeoutId := false
    binaryTypeInternal := none
    lastKnownExtensions := ""
    lastKnownProtocol := ""
    pendingBackoff := 0
    pendingShould := [] }

/-- The constructor (lines 546-572): initialize the fields, then
`openNewWebSocket()`. -/
def construct (_o : Options) : State × List Output :=
  openNewWebSocketFn initialState

/-- Run a sequence of callback invocations, concatenating outputs. -/
def run (o : Options) (s : State) : List Input → State × List Output
  | [] => (s, [])
  | i :: is =>
      let p := step o s i
      let q := run o p.1 is
      (q.1, p.2 ++ q.2)

/-- A whole execution: construct, then process the inputs. -/
def runFromInit (o : Options) (l : List Input) : State × List Output :=
  let c := construct o
  let q := run o c.1 l
  (q.1, c.2 ++ q.2)

/-- Whether an output is a dispatched event of the given name. -/
def isDispatchOf (t : EvType) : Output → Bool
  | .dispatchEv u _ => u = t
  | _ => false

/-- How many events of the given name a list of outputs dispatches. -/
def countEv (t : EvType) (l : List Output) : ℕ :=
  l.countP fun out => isDispatchOf t out

/-- Whether an output starts or schedules a connection attempt. -/
def isAttempt : Output → Bool
  | .newSocket => true
  | .scheduleRetry _ => true
  | _ => false

/-- How many outputs start or schedule a connection attempt. -/
def countAttempts (l : List Output) : ℕ :=
  l.countP fun out => isAttempt out

/-- The retry delays scheduled in a list of outputs, in order. -/
def scheduledDelays (l : List Output) : List ℚ :=
  l.filterMap fun out =>
    match out with
    | .scheduleRetry d => some d
    | _ => none

/-- The payloads passed to the transport in a list of outputs, in order. -/
def sentData (l : List Output) : List Data :=
  l.filterMap fun out =>
    match out with
    | .transportSend d => some d
    | _ => none

/-- Whether `this.ws && this.ws.readyState === this.OPEN` (line 624). -/
def usable (s : State) : Bool :=
  match s.ws with
  | some h => h.readyState = 1
  | none => false

/-- The tuple of the class's own mutable fields (the bookkeeping fields
`pendingBackoff`/`pendingShould` stand for timers and promises living
outside the object and are excluded). -/
def classFields (s : State) :
    Option Handle × Bool × Bool × List Data × ℚ × ℕ × Bool × Bool ×
      Option String × String × String :=
  (s.ws, s.hasBeenOpened, s.isClosed, s.messageBuffer, s.nextRetryTime,
   s.reconnectCount, s.allClearTimeoutId, s.connectTimeoutId,
   s.binaryTypeInternal, s.lastKnownExtensions, s.lastKnownProtocol)

/-- The state transformer of one `reestablishConnection()` call. -/
def reestState (o : Options) (s : State) : State :=
  (reestablishConnectionFn o s).1

/-- The retry-delay recurrence asserted by the spec: `delay[0] = 0`,
`delay[i+1] = max(min, min(delay[i] * factor, max))`. -/
def delaySeq (o : Options) : ℕ → ℚ
  | 0 => 0
  | n + 1 => clampNext o (delaySeq o n)

/-- Options of the spec scenario: `minReconnectDelay=1, maxReconnectDelay=9,
reconnectBackoffFactor=2, maxReconnectAttempts=7`, policy always approving. -/
def oScenario : Options :=
  { allClearResetTime := 5000
    connectTimeout := 5000
    minReconnectDelay := 1
    maxReconnectDelay := 9
    maxReconnectAttempts := some 7
    reconnectBackoffFactor := 2
    shouldReconnect := fun _ => .sync true }

/-- The scenario's input trace: every attempt fails immediately (a remote
close right after each socket creation). -/
def traceScenario : List Input :=
  [.rawClose 0, .backoffFire, .rawClose 0, .backoffFire, .rawClose 0,
   .backoffFire, .rawClose 0, .backoffFire, .rawClose 0, .backoffFire,
   .rawClose 0, .backoffFire, .rawClose 0, .backoffFire, .rawClose 0]

/-- Options with a synchronously denying reconnection policy. -/
def oDeny : Options :=
  { allClearResetTime := 5000
    connectTimeout := 5000
    minReconnectDelay := 1000
    maxReconnectDelay := 30000
    maxReconnectAttempts := none
    reconnectBackoffFactor := 3 / 2
    shouldReconnect := fun _ => .sync false }

/-- Options with the always-approving default policy. -/
def oApprove : Options :=
  { oDeny with shouldReconnect := fun _ => .sync true }

/-- A permanently closed state reached by a remote close that the policy
denied. -/
def sDenied : State :=
  (runFromInit oDeny [.rawClose 0]).1

/-- A permanently closed state reached by scheduling one reconnection and
then calling `close()` before the backoff timer fired. -/
def sClosedPending : State :=
  (runFromInit oApprove [.rawClose 0, .apiClose none none]).1

/-!
The event/listener layer (`listeners`, `addEventListener`,
`removeEventListener`, `dispatchEventOfType`, lines 538, 649-680 and
873-923).  Listeners are identified by reference equality in the source
(`l !== listener`), so a listener is modelled by an identity `LId`; its
behaviour when invoked is supplied externally as a registry transformer
`act : LId → Registry → Registry`, which in particular can add or remove
listeners re-entrantly.  The JS object `this.listeners` becomes an
association list keyed by event-name string: property read is first-match
lookup, property write replaces the first match or appends a fresh key.
-/

/-- Identity of a listener (JS reference equality). -/
abbrev LId := ℕ

/-- `this.listeners`: event name to ordered listener array. -/
abbrev Registry := List (String × List LId)

/-- Property read `this.listeners[type]` (with `type in this.listeners`
modelled by the result being `some`). -/
def lookupReg : Registry → String → Option (List LId)
  | [], _ => none
  | (k, v) :: rest, ty => if k = ty then some v else lookupReg rest ty

/-- Property write `this.listeners[type] = v`. -/
def setReg : Registry → String → List LId → Registry
  | [], ty, v => [(ty, v)]
  | (k, w) :: rest, ty, v =>
      if k = ty then (ty, v) :: rest else (k, w) :: setReg rest ty v

/-- `addEventListener(type, listener)` (lines 649-657): create the array if
absent, then push. -/
def addEventListenerFn (r : Registry) (ty : String) (l : LId) : Registry :=
  match lookupReg r ty with
  | none => setReg r ty [l]
  | some xs => setReg r ty (xs ++ [l])

/-- `removeEventListener(type, listener)` (lines 671-680): filter out every
occurrence under reference equality. -/
def removeEventListenerFn (r : Registry) (ty : String) (l : LId) : Registry :=
  match lookupReg r ty with
  | none => r
  | some xs => setReg r ty (xs.filter fun x => x ≠ l)

/-- A record of one callback invocation during a dispatch. -/
inductive CallRec where
  | slotCall (ty : String)
  | listenerCall (l : LId)
deriving DecidableEq, Repr

/-- The six single-slot `onX` callback fields (lines 514-519), nullable. -/
structure Slots where
  onclose : Option LId
  onerror : Option LId
  onmessage : Option LId
  onopen : Option LId
  ondown : Option LId
  onreopen : Option LId
deriving DecidableEq, Repr

/-- The `switch (type)` of `dispatchEventOfType` (lines 874-905): only the
six known names have a single-slot callback. -/
def slotFor (sl : Slots) : String → Option LId
  | "close" => sl.onclose
  | "error" => sl.onerror
  | "message" => sl.onmessage
  | "open" => sl.onopen
  | "down" => sl.ondown
  | "reopen" => sl.onreopen
  | _ => none

/-- `snap.forEach(listener => this.callListener(listener, event))` over the
`.slice()` snapshot (lines 906-910): each invoked listener may mutate the
live registry, but the iteration follows the snapshot. -/
def runSnapshot (act : LId → Registry → Registry) :
    List LId → Registry → Registry × List CallRec
  | [], r => (r, [])
  | l :: ls, r =>
      let r1 := act l r
      let p := runSnapshot act ls r1
      (p.1, .listenerCall l :: p.2)

/-- `dispatchEventOfType(type, event)` (lines 873-912): the single-slot
callback first (it may itself mutate the registry), then — if the name is a
key of `this.listeners` — a `.slice()` snapshot of that entry, iterated in
order while threading any re-entrant mutations. -/
def dispatchEventOfTypeFn (act : LId → Registry → Registry) (sl : Slots)
    (ty : String) (r : Registry) : Registry × List CallRec :=
  let p1 : Registry × List CallRec :=
    match slotFor sl ty with
    | some c => (act c r, [.slotCall ty])
    | none => (r, [])
  match lookupReg p1.1 ty with
  | none => (p1.1, p1.2)
  | some snap =>
      let p2 := runSnapshot act snap p1.1
      (p2.1, p1.2 ++ p2.2)

/-!
Helper lemmas about the counting functions and the individual handlers.
-/

theorem ratMax_eq_max (a b : ℚ) : ratMax a b = max a b := by
  rw [ratMax, max_def]

theorem ratMin_eq_min (a b : ℚ) : ratMin a b = min a b := by
  rw [ratMin, min_def]

theorem countEv_append (t : EvType) (a b : List Output) :
    countEv t (a ++ b) = countEv t a + countEv t b := by
  simp [countEv, List.countP_append]

theorem countAttempts_append (a b : List Output) :
    countAttempts (a ++ b) = countAttempts a + countAttempts b := by
  simp [countAttempts, List.countP_append]

theorem sentData_append (a b : List Output) :
    sentData (a ++ b) = sentData a ++ sentData b := by
  simp [sentData]

theorem countEv_nil (t : EvType) : countEv t [] = 0 := by
  simp [countEv]

theorem countEv_cons (t : EvType) (a : Output) (l : List Output) :
    countEv t (a :: l) =
      countEv t l + if isDispatchOf t a = true then 1 else 0 := by
  simp [countEv, List.countP_cons]

theorem countAttempts_nil : countAttempts [] = 0 := by
  simp [countAttempts]

theorem countAttempts_cons (a : Output) (l : List Output) :
    countAttempts (a :: l) =
      countAttempts l + if isAttempt a = true then 1 else 0 := by
  simp [countAttempts, List.countP_cons]

theorem scheduledDelays_append (a b : List Output) :
    scheduledDelays (a ++ b) = scheduledDelays a ++ scheduledDelays b := by
  simp [scheduledDelays]

theorem sendFn_of_usable (d : Data) (s : State) (h : usable s = true) :
    sendFn d s = (s, [Output.transportSend d]) := by
  unfold usable at h
  unfold sendFn
  cases hw : s.ws with
  | none => rw [hw] at h; simp at h
  | some hd =>
      rw [hw] at h
      simp only [decide_eq_true_eq] at h
      simp [h]

theorem sendFn_of_not_usable (d : Data) (s : State) (h : usable s = false) :
    sendFn d s = ({ s with messageBuffer := s.messageBuffer ++ [d] }, []) := by
  unfold usable at h
  unfold sendFn
  cases hw : s.ws with
  | none => simp
  | some hd =>
      rw [hw] at h
      simp only [decide_eq_false_iff_not] at h
      simp [h]

theorem flushFn_of_usable (l : List Data) (s : State) (h : usable s = true) :
    flushFn l s = (s, l.map Output.transportSend) := by
  induction l with
  | nil => simp [flushFn]
  | cons d ds ih => simp [flushFn, sendFn_of_usable d s h, ih]

theorem handleOpenFn_spec (s : State) (hd : Handle) (hw : s.ws = some hd)
    (hr : hd.readyState = 1) (hc : s.isClosed = false) :
    (handleOpenFn s).2 =
        (if s.hasBeenOpened then [Output.dispatchEv .reopenE none]
         else [Output.dispatchEv .openE none]) ++
          s.messageBuffer.map Output.transportSend ∧
      (handleOpenFn s).1.messageBuffer = [] ∧
      (handleOpenFn s).1.hasBeenOpened = true ∧
      (handleOpenFn s).1.isClosed = false ∧
      (handleOpenFn s).1.allClearTimeoutId = true ∧
      (handleOpenFn s).1.connectTimeoutId = false := by
  unfold handleOpenFn
  rw [hw]
  cases hb : s.binaryTypeInternal with
  | none =>
      cases hbo : s.hasBeenOpened with
      | false => simp [hc, hbo, clearConnectTimeoutFn, flushFn_of_usable, usable, hr]
      | true => simp [hc, hbo, clearConnectTimeoutFn, flushFn_of_usable, usable, hr]
  | some b =>
      cases hbo : s.hasBeenOpened with
      | false => simp [hc, hbo, clearConnectTimeoutFn, flushFn_of_usable, usable, hr]
      | true => simp [hc, hbo, clearConnectTimeoutFn, flushFn_of_usable, usable, hr]

theorem handleCloseFn_of_closed (o : Options) (e : Option CloseEvt) (s : State)
    (h : s.isClosed = true) : handleCloseFn o e s = (s, []) := by
  simp [handleCloseFn, h]

theorem handleCloseFn_down (o : Options) (e : Option CloseEvt) (s : State)
    (hc : s.isClosed = false) :
    countEv .downE (handleCloseFn o e s).2 = 1 ∧
      (handleCloseFn o e s).2.head? = some (Output.dispatchEv .downE e) ∧
      Output.newSocket ∉ (handleCloseFn o e s).2 := by
  unfold handleCloseFn
  rcases hw : s.ws with _ | h <;> rcases e with _ | ev <;>
    simp only [hc, hw, Bool.false_eq_true, if_false] <;>
    (repeat' split) <;>
    (try simp_all [countEv, isDispatchOf, stopReconnectingFn, shutdownFn,
      clearAllTimeoutsFn, clearAllClearTimeoutFn, clearConnectTimeoutFn,
      handleWillReconnectFn, reestablishConnectionFn]) <;>
    (repeat' split) <;>
    (try simp_all [countEv, isDispatchOf])

theorem countEv_map_transportSend (t : EvType) (l : List Data) :
    countEv t (l.map Output.transportSend) = 0 := by
  induction l with
  | nil => simp [countEv]
  | cons d ds ih =>
      rw [List.map_cons]
      simp only [countEv, List.countP_cons, isDispatchOf] at ih ⊢
      simp [ih]

theorem countAttempts_map_transportSend (l : List Data) :
    countAttempts (l.map Output.transportSend) = 0 := by
  induction l with
  | nil => simp [countAttempts]
  | cons d ds ih =>
      rw [List.map_cons]
      simp only [countAttempts, List.countP_cons, isAttempt] at ih ⊢
      simp [ih]

theorem sentData_map_transportSend (l : List Data) :
    sentData (l.map Output.transportSend) = l := by
  induction l with
  | nil => simp [sentData]
  | cons d ds ih => simpa [sentData] using ih

theorem handleCloseFn_maxed (o : Options) (e : Option CloseEvt) (s : State)
    (hc : s.isClosed = false) (hm : reachedMax o s.reconnectCount = true) :
    (handleCloseFn o e s).1.isClosed = true ∧
      countAttempts (handleCloseFn o e s).2 = 0 ∧
      countEv .closeE (handleCloseFn o e s).2
        = (match e with
           | some _ => 1
           | none => 0) := by
  unfold handleCloseFn
  rcases hw : s.ws with _ | h <;> rcases e with _ | ev <;>
    simp_all [countAttempts, isAttempt, countEv, isDispatchOf,
      stopReconnectingFn, shutdownFn, clearAllTimeoutsFn,
      clearAllClearTimeoutFn, clearConnectTimeoutFn]

theorem handleCloseFn_sync_false (o : Options) (ev : CloseEvt) (s : State)
    (hc : s.isClosed = false) (hp : o.shouldReconnect ev = .sync false) :
    (handleCloseFn o (some ev) s).1.isClosed = true ∧
      countAttempts (handleCloseFn o (some ev) s).2 = 0 ∧
      countEv .closeE (handleCloseFn o (some ev) s).2 = 1 := by
  unfold handleCloseFn
  rcases hw : s.ws with _ | h <;>
    simp only [hc, hw, Bool.false_eq_true, if_false] <;>
    (repeat' split) <;>
    (try simp_all [countAttempts, isAttempt, countEv, isDispatchOf,
      stopReconnectingFn, shutdownFn, clearAllTimeoutsFn,
      clearAllClearTimeoutFn, clearConnectTimeoutFn, handleWillReconnectFn,
      reestablishConnectionFn])

theorem handleCloseFn_sync_true (o : Options) (ev : CloseEvt) (s : State)
    (hc : s.isClosed = false) (hm : reachedMax o s.reconnectCount = false)
    (hp : o.shouldReconnect ev = .sync true) :
    (handleCloseFn o (some ev) s).1.isClosed = false ∧
      scheduledDelays (handleCloseFn o (some ev) s).2 = [s.nextRetryTime] ∧
      (handleCloseFn o (some ev) s).1.nextRetryTime = clampNext o s.nextRetryTime ∧
      (handleCloseFn o (some ev) s).1.reconnectCount = s.reconnectCount + 1 ∧
      (handleCloseFn o (some ev) s).1.pendingBackoff = s.pendingBackoff + 1 := by
  unfold handleCloseFn
  rcases hw : s.ws with _ | h <;>
    simp_all [scheduledDelays, stopReconnectingFn, shutdownFn,
      clearAllTimeoutsFn, clearAllClearTimeoutFn, clearConnectTimeoutFn,
      handleWillReconnectFn, reestablishConnectionFn]

theorem handleCloseFn_noEvent (o : Options) (s : State)
    (hc : s.isClosed = false) (hm : reachedMax o s.reconnectCount = false) :
    (handleCloseFn o none s).1.isClosed = false ∧
      scheduledDelays (handleCloseFn o none s).2 = [s.nextRetryTime] ∧
      (handleCloseFn o none s).1.nextRetryTime = clampNext o s.nextRetryTime ∧
      (handleCloseFn o none s).1.reconnectCount = s.reconnectCount + 1 ∧
      (handleCloseFn o none s).1.pendingBackoff = s.pendingBackoff + 1 ∧
      countEv .closeE (handleCloseFn o none s).2 = 0 := by
  unfold handleCloseFn
  rcases hw : s.ws with _ | h <;>
    simp_all [scheduledDelays, countEv, isDispatchOf, stopReconnectingFn,
      shutdownFn, clearAllTimeoutsFn, clearAllClearTimeoutFn,
      clearConnectTimeoutFn, handleWillReconnectFn, reestablishConnectionFn]

theorem handleCloseFn_misc (o : Options) (e : Option CloseEvt) (s : State) :
    (handleCloseFn o e s).1.hasBeenOpened = s.hasBeenOpened ∧
      countEv .openE (handleCloseFn o e s).2 = 0 ∧
      countEv .reopenE (handleCloseFn o e s).2 = 0 := by
  unfold handleCloseFn
  rcases hcb : s.isClosed <;> rcases hw : s.ws with _ | h <;> rcases e with _ | ev <;>
    simp only [hcb, hw, Bool.false_eq_true, if_false, if_true] <;>
    (repeat' split) <;>
    (try simp_all [countEv, isDispatchOf, stopReconnectingFn, shutdownFn,
      clearAllTimeoutsFn, clearAllClearTimeoutFn, clearConnectTimeoutFn,
      handleWillReconnectFn, reestablishConnectionFn]) <;>
    (repeat' split) <;>
    (try simp_all [countEv, isDispatchOf])

theorem handleCloseFn_closeCount (o : Options) (e : Option CloseEvt) (s : State)
    (hc : s.isClosed = false) :
    countEv .closeE (handleCloseFn o e s).2 ≤ 1 ∧
      ((handleCloseFn o e s).1.isClosed = false →
        countEv .closeE (handleCloseFn o e s).2 = 0) := by
  unfold handleCloseFn
  rcases hw : s.ws with _ | h <;> rcases e with _ | ev <;>
    simp only [hc, hw, Bool.false_eq_true, if_false] <;>
    (repeat' split) <;>
    (try simp_all [countEv, isDispatchOf, stopReconnectingFn, shutdownFn,
      clearAllTimeoutsFn, clearAllClearTimeoutFn, clearConnectTimeoutFn,
      handleWillReconnectFn, reestablishConnectionFn]) <;>
    (repeat' split) <;>
    (try simp_all [countEv, isDispatchOf])

/-!
Step-level lemmas used by the trace invariants.
-/

theorem step_of_closed (o : Options) (s : State) (i : Input)
    (h : s.isClosed = true) :
    (step o s i).1.isClosed = true ∧
      countAttempts (step o s i).2 = 0 ∧
      countEv .openE (step o s i).2 = 0 ∧
      countEv .reopenE (step o s i).2 = 0 ∧
      countEv .closeE (step o s i).2 = 0 ∧
      (step o s i).1.hasBeenOpened = s.hasBeenOpened := by
  cases i with
  | rawOpen =>
      rcases hw : s.ws with _ | hd <;>
        simp [step, hw, handleOpenFn, setOpenReadyState, h,
          countEv, countAttempts]
  | rawClose e =>
      rcases hw : s.ws with _ | hd <;>
        simp [step, hw, handleCloseFn_of_closed, h, countEv, countAttempts]
  | rawMessage m =>
      rcases hw : s.ws with _ | hd <;>
        simp [step, hw, handleMessageFn, h, countEv, countAttempts]
  | rawError =>
      rcases hw : s.ws with _ | hd <;>
        simp [step, hw, handleErrorFn, h, countEv, countAttempts,
          isDispatchOf, isAttempt]
  | connectTimeoutFire =>
      rcases hf : s.connectTimeoutId <;>
        simp [step, hf, connectTimeoutCb, clearConnectTimeoutFn,
          disposeSocketFn, handleCloseFn_of_closed, h, countEv,
          countAttempts, isDispatchOf, isAttempt] <;>
        rcases hw : s.ws with _ | hd <;>
        simp [hw, handleCloseFn_of_closed, h, countEv, countAttempts,
          isDispatchOf, isAttempt]
  | allClearFire =>
      rcases hf : s.allClearTimeoutId <;>
        simp [step, hf, allClearCb, clearAllClearTimeoutFn, h, countEv,
          countAttempts]
  | backoffFire =>
      rcases hp : s.pendingBackoff with _ | n <;>
        simp [step, hp, openNewWebSocketFn, h, countEv, countAttempts]
  | policyResolve i b =>
      rcases hg : s.pendingShould[i]? with _ | ev <;>
        simp [step, List.get?_eq_getElem?, hg, h, countEv, countAttempts]
  | apiSend d =>
      rcases hw : s.ws with _ | hd <;>
        simp [step, hw, sendFn, h, countEv, countAttempts, isDispatchOf,
          isAttempt] <;>
        split <;>
        simp [h, countEv, countAttempts, isDispatchOf, isAttempt]
  | apiClose code reason =>
      rcases hw : s.ws with _ | hd <;>
        simp [step, hw, closeFn, disposeSocketFn, shutdownFn,
          clearAllTimeoutsFn, clearAllClearTimeoutFn, clearConnectTimeoutFn,
          h, countEv, countAttempts, isDispatchOf, isAttempt]
  | apiReconnect =>
      simp [step, reconnectFn, h, countEv, countAttempts, isDispatchOf,
        isAttempt]

theorem run_of_closed (o : Options) (l : List Input) (s : State)
    (h : s.isClosed = true) :
    (run o s l).1.isClosed = true ∧
      countAttempts (run o s l).2 = 0 ∧
      countEv .openE (run o s l).2 = 0 ∧
      countEv .reopenE (run o s l).2 = 0 ∧
      countEv .closeE (run o s l).2 = 0 ∧
      (run o s l).1.hasBeenOpened = s.hasBeenOpened := by
  induction l generalizing s with
  | nil => simp [run, h, countEv, countAttempts]
  | cons i is ih =>
      obtain ⟨c1, c2, c3, c4, c5, c6⟩ := step_of_closed o s i h
      obtain ⟨r1, r2, r3, r4, r5, r6⟩ := ih (step o s i).1 c1
      refine ⟨r1, ?_, ?_, ?_, ?_, ?_⟩ <;>
        simp [run, countEv_append, countAttempts_append, c2, c3, c4, c5, c6,
          r2, r3, r4, r5, r6]

theorem closePath_trace (o : Options) (e : Option CloseEvt) (s0 s1 : State)
    (hc1 : s1.isClosed = false) (hb1 : s1.hasBeenOpened = s0.hasBeenOpened) :
    ((handleCloseFn o e s1).1.hasBeenOpened).toNat
        = s0.hasBeenOpened.toNat + countEv .openE (handleCloseFn o e s1).2 ∧
      countEv .closeE (handleCloseFn o e s1).2 ≤ 1 ∧
      ((handleCloseFn o e s1).1.isClosed = false →
        countEv .closeE (handleCloseFn o e s1).2 = 0) := by
  obtain ⟨m1, m2, m3⟩ := handleCloseFn_misc o e s1
  obtain ⟨k1, k2⟩ := handleCloseFn_closeCount o e s1 hc1
  exact ⟨by simp [m1, m2, hb1], k1, k2⟩

theorem closePath_trace_cons (o : Options) (e : Option CloseEvt) (s0 s1 : State)
    (a : Output) (ha1 : isDispatchOf .openE a = false)
    (ha2 : isDispatchOf .closeE a = false)
    (hc1 : s1.isClosed = false) (hb1 : s1.hasBeenOpened = s0.hasBeenOpened) :
    ((handleCloseFn o e s1).1.hasBeenOpened).toNat
        = s0.hasBeenOpened.toNat +
            countEv .openE (a :: (handleCloseFn o e s1).2) ∧
      countEv .closeE (a :: (handleCloseFn o e s1).2) ≤ 1 ∧
      ((handleCloseFn o e s1).1.isClosed = false →
        countEv .closeE (a :: (handleCloseFn o e s1).2) = 0) := by
  obtain ⟨m1, m2, m3⟩ := handleCloseFn_misc o e s1
  obtain ⟨k1, k2⟩ := handleCloseFn_closeCount o e s1 hc1
  refine ⟨by simp [countEv_cons, ha1, m1, m2, hb1], ?_, fun hcl => ?_⟩
  · simpa [countEv_cons, ha2] using k1
  · simpa [countEv_cons, ha2] using k2 hcl

theorem step_trace (o : Options) (s : State) (i : Input)
    (hc : s.isClosed = false) :
    ((step o s i).1.hasBeenOpened).toNat
        = s.hasBeenOpened.toNat + countEv .openE (step o s i).2 ∧
      countEv .closeE (step o s i).2 ≤ 1 ∧
      ((step o s i).1.isClosed = false → countEv .closeE (step o s i).2 = 0) := by
  cases i with
  | rawOpen =>
      rcases hw : s.ws with _ | hd
      · simp [step, hw, countEv]
      · simp only [step, hw]
        obtain ⟨h1, h2, h3, h4, h5, h6⟩ :=
          handleOpenFn_spec (setOpenReadyState s) { hd with readyState := 1 }
            (by simp [setOpenReadyState, hw]) rfl (by simp [setOpenReadyState, hc])
        rw [h1, h3, h4]
        have hbo : (setOpenReadyState s).hasBeenOpened = s.hasBeenOpened := by
          simp [setOpenReadyState]
        have hmb : (setOpenReadyState s).messageBuffer = s.messageBuffer := by
          simp [setOpenReadyState]
        rw [hbo, hmb]
        rcases hb2 : s.hasBeenOpened <;>
          simp [countEv_append, countEv_map_transportSend, countEv_cons,
            countEv_nil, isDispatchOf]
  | rawClose e =>
      rcases hw : s.ws with _ | hd
      · simp [step, hw, countEv]
      · simp only [step, hw]
        obtain ⟨m1, m2, m3⟩ := handleCloseFn_misc o (some e) s
        obtain ⟨k1, k2⟩ := handleCloseFn_closeCount o (some e) s hc
        exact ⟨by simp [m1, m2], k1, k2⟩
  | rawMessage m =>
      rcases hw : s.ws with _ | hd <;>
        simp [step, hw, handleMessageFn, hc, countEv, isDispatchOf]
  | rawError =>
      rcases hw : s.ws with _ | hd <;>
        simp [step, hw, handleErrorFn, countEv, isDispatchOf]
  | connectTimeoutFire =>
      rcases hf : s.connectTimeoutId
      · simp [step, hf, countEv]
      · simp only [step, hf, if_true]
        unfold connectTimeoutCb
        rcases hw : s.ws with _ | hd
        · simp only [clearConnectTimeoutFn, disposeSocketFn, hw,
            List.nil_append]
          exact closePath_trace o none s _ (by simp [hc]) (by simp)
        · simp only [clearConnectTimeoutFn, disposeSocketFn, hw,
            List.singleton_append]
          exact closePath_trace_cons o none s _ _ (by simp [isDispatchOf])
            (by simp [isDispatchOf]) (by simp [hc]) (by simp)
  | allClearFire =>
      rcases hf : s.allClearTimeoutId <;>
        simp [step, hf, allClearCb, clearAllClearTimeoutFn, countEv]
  | backoffFire =>
      rcases hp : s.pendingBackoff with _ | n <;>
        simp [step, hp, openNewWebSocketFn, hc, countEv, isDispatchOf]
  | policyResolve i b =>
      rcases hg : s.pendingShould[i]? with _ | ev
      · simp [step, List.get?_eq_getElem?, hg, countEv]
      · rcases b <;>
          simp [step, List.get?_eq_getElem?, hg, hc, handleWillReconnectFn,
            reestablishConnectionFn, stopReconnectingFn, shutdownFn,
            clearAllTimeoutsFn, clearAllClearTimeoutFn, clearConnectTimeoutFn,
            countEv, isDispatchOf]
  | apiSend d =>
      rcases hw : s.ws with _ | hd <;>
        simp [step, hw, sendFn, countEv, isDispatchOf] <;>
        split <;>
        simp [countEv, isDispatchOf]
  | apiClose code reason =>
      rcases hw : s.ws with _ | hd <;>
        simp [step, hw, closeFn, disposeSocketFn, shutdownFn,
          clearAllTimeoutsFn, clearAllClearTimeoutFn, clearConnectTimeoutFn,
          countEv, isDispatchOf]
  | apiReconnect =>
      simp only [step, reconnectFn, hc, Bool.false_eq_true, if_false]
      rcases hw : s.ws with _ | hd
      · simp only [disposeSocketFn, hw, List.nil_append]
        exact closePath_trace o none s _ hc rfl
      · simp only [disposeSocketFn, hw, List.singleton_append]
        exact closePath_trace_cons o none s _ _ (by simp [isDispatchOf])
          (by simp [isDispatchOf]) (by simp [hc]) (by simp)

theorem run_trace (o : Options) (l : List Input) (s : State)
    (hc : s.isClosed = false) :
    ((run o s l).1.hasBeenOpened).toNat
        = s.hasBeenOpened.toNat + countEv .openE (run o s l).2 ∧
      countEv .closeE (run o s l).2 ≤ 1 ∧
      ((run o s l).1.isClosed = false → countEv .closeE (run o s l).2 = 0) := by
  induction l generalizing s with
  | nil => simp [run, countEv]
  | cons i is ih =>
      obtain ⟨t1, t2, t3⟩ := step_trace o s i hc
      have hrun : run o s (i :: is)
          = ((run o (step o s i).1 is).1,
             (step o s i).2 ++ (run o (step o s i).1 is).2) := by
        simp [run]
      rcases hmid : (step o s i).1.isClosed
      · obtain ⟨r1, r2, r3⟩ := ih (step o s i).1 hmid
        rw [hrun]
        have hs0 := t3 hmid
        refine ⟨?_, ?_, fun hfin => ?_⟩
        · simp only [countEv_append]; omega
        · simp only [countEv_append]; omega
        · have hrest := r3 hfin
          simp only [countEv_append]; omega
      · obtain ⟨r1, r2, r3, r4, r5, r6⟩ := run_of_closed o is (step o s i).1 hmid
        rw [hrun]
        refine ⟨?_, ?_, fun hfin => ?_⟩
        · simp only [countEv_append]; rw [r6]; omega
        · simp only [countEv_append]; omega
        · rw [r1] at hfin; cases hfin

theorem runFromInit_trace (o : Options) (l : List Input) :
    countEv .openE (runFromInit o l).2
        = (if (runFromInit o l).1.hasBeenOpened then 1 else 0) ∧
      countEv .closeE (runFromInit o l).2 ≤ 1 ∧
      ((runFromInit o l).1.isClosed = false →
        countEv .closeE (runFromInit o l).2 = 0) := by
  obtain ⟨t1, t2, t3⟩ :=
    run_trace o l (construct o).1 (by simp [construct, openNewWebSocketFn, initialState])
  have hinit : (construct o).2 = [Output.newSocket] := by
    simp [construct, openNewWebSocketFn, initialState]
  have hb0 : (construct o).1.hasBeenOpened = false := by
    simp [construct, openNewWebSocketFn, initialState]
  have hfi1 : (runFromInit o l).1 = (run o (construct o).1 l).1 := by
    simp [runFromInit]
  have hfi2 : (runFromInit o l).2
      = (construct o).2 ++ (run o (construct o).1 l).2 := by
    simp [runFromInit]
  rw [hb0] at t1
  rw [hfi1, hfi2, hinit]
  refine ⟨?_, ?_, fun hfin => ?_⟩
  · rcases hbf : (run o (construct o).1 l).1.hasBeenOpened <;>
      rw [hbf] at t1 <;>
      simp only [hbf, countEv_append, countEv_cons, countEv_nil, isDispatchOf] <;>
      simp at t1 ⊢ <;> omega
  · simpa [countEv_append, countEv_cons, countEv_nil, isDispatchOf] using t2
  · have h0 := t3 hfin
    simpa [countEv_append, countEv_cons, countEv_nil, isDispatchOf] using h0

theorem scheduledDelays_nil : scheduledDelays [] = [] := by
  simp [scheduledDelays]

theorem scheduledDelays_cons (a : Output) (l : List Output) :
    scheduledDelays (a :: l) =
      (match a with
       | .scheduleRetry d => [d]
       | _ => []) ++ scheduledDelays l := by
  rcases a <;> simp [scheduledDelays]

theorem sentData_cons (a : Output) (l : List Output) :
    sentData (a :: l) =
      (match a with
       | .transportSend d => [d]
       | _ => []) ++ sentData l := by
  rcases a <;> simp [sentData]

theorem run_sends (o : Options) (ds : List Data) (s : State)
    (h : usable s = false) :
    run o s (ds.map Input.apiSend)
      = ({ s with messageBuffer := s.messageBuffer ++ ds }, []) := by
  induction ds generalizing s with
  | nil => simp [run]
  | cons d rest ih =>
      have h1 : step o s (.apiSend d)
          = ({ s with messageBuffer := s.messageBuffer ++ [d] }, []) := by
        simpa [step] using sendFn_of_not_usable d s h
      have h2 : usable { s with messageBuffer := s.messageBuffer ++ [d] }
          = false := by
        simpa [usable] using h
      simp [run, h1, ih _ h2]

theorem reestState_nextRetryTime (o : Options) (s : State) (n : ℕ)
    (h : s.nextRetryTime = 0) :
    ((reestState o)^[n] s).nextRetryTime = delaySeq o n := by
  induction n with
  | zero => simpa [delaySeq] using h
  | succ n ih =>
      rw [Function.iterate_succ_apply']
      simp [reestState, reestablishConnectionFn, delaySeq, ih]

theorem flushFn_no_newSocket (l : List Data) (s : State) :
    Output.newSocket ∉ (flushFn l s).2 := by
  induction l generalizing s with
  | nil => simp [flushFn]
  | cons d ds ih =>
      unfold flushFn
      rcases hu : usable s
      · rw [sendFn_of_not_usable d s hu]
        simpa using ih _
      · rw [sendFn_of_usable d s hu]
        simpa using ih _

theorem handleOpenFn_no_newSocket (s : State) :
    Output.newSocket ∉ (handleOpenFn s).2 := by
  unfold handleOpenFn
  rcases hw : s.ws with _ | hd
  · simp
  · rcases hc : s.isClosed
    · rcases hb : s.binaryTypeInternal <;> rcases hbo : s.hasBeenOpened <;>
        simp only [hc, hb, hbo, Bool.false_eq_true, if_false, if_true] <;>
        simp [flushFn_no_newSocket, clearConnectTimeoutFn]
    · simp [hc]

theorem handleCloseFn_no_newSocket (o : Options) (e : Option CloseEvt)
    (s : State) : Output.newSocket ∉ (handleCloseFn o e s).2 := by
  unfold handleCloseFn
  rcases s.isClosed <;> rcases s.ws with _ | h <;> rcases e with _ | ev <;>
    simp only [Bool.false_eq_true, if_false, if_true] <;>
    (repeat' split) <;>
    (try simp_all [stopReconnectingFn, shutdownFn, clearAllTimeoutsFn,
      clearAllClearTimeoutFn, clearConnectTimeoutFn, handleWillReconnectFn,
      reestablishConnectionFn]) <;>
    (repeat' split) <;>
    simp_all

theorem newSocket_only_backoff (o : Options) (s : State) (i : Input)
    (h : Output.newSocket ∈ (step o s i).2) : i = Input.backoffFire := by
  cases i with
  | backoffFire => rfl
  | rawOpen =>
      exfalso
      simp only [step] at h
      rcases hw : s.ws with _ | hd <;> simp only [hw] at h
      · simp at h
      · exact handleOpenFn_no_newSocket _ h
  | rawClose e =>
      exfalso
      simp only [step] at h
      rcases hw : s.ws with _ | hd <;> simp only [hw] at h
      · simp at h
      · exact handleCloseFn_no_newSocket _ _ _ h
  | rawMessage m =>
      exfalso
      simp only [step] at h
      rcases hw : s.ws with _ | hd <;> simp only [hw] at h
      · simp at h
      · unfold handleMessageFn at h
        rcases hc : s.isClosed <;> simp [hc] at h
  | rawError =>
      exfalso
      simp only [step] at h
      rcases hw : s.ws with _ | hd <;> simp only [hw] at h
      · simp at h
      · simp [handleErrorFn] at h
  | connectTimeoutFire =>
      exfalso
      simp only [step] at h
      rcases hf : s.connectTimeoutId <;> simp only [hf] at h
      · simp at h
      · simp only [if_true] at h
        unfold connectTimeoutCb at h
        rcases hw : s.ws with _ | hd <;>
          simp only [clearConnectTimeoutFn, disposeSocketFn, hw,
            List.nil_append, List.singleton_append, List.mem_cons] at h
        · exact handleCloseFn_no_newSocket _ _ _ h
        · rcases h with h | h
          · cases h
          · exact handleCloseFn_no_newSocket _ _ _ h
  | allClearFire =>
      exfalso
      simp only [step] at h
      rcases hf : s.allClearTimeoutId <;> simp [hf, allClearCb] at h
  | policyResolve i b =>
      exfalso
      simp only [step, List.get?_eq_getElem?] at h
      rcases hg : s.pendingShould[i]? with _ | ev <;> simp only [hg] at h
      · simp at h
      · rcases hc : s.isClosed <;> simp only [hc] at h
        · unfold handleWillReconnectFn at h
          rcases b <;>
            simp [reestablishConnectionFn, stopReconnectingFn, shutdownFn,
              clearAllTimeoutsFn, clearAllClearTimeoutFn,
              clearConnectTimeoutFn] at h
        · simp at h
  | apiSend d =>
      exfalso
      simp only [step] at h
      unfold sendFn at h
      rcases hw : s.ws with _ | hd <;> simp only [hw] at h
      · simp at h
      · split at h <;> simp at h
  | apiClose code reason =>
      exfalso
      simp only [step] at h
      unfold closeFn disposeSocketFn at h
      rcases hw : s.ws with _ | hd <;> simp only [hw] at h <;> simp at h
  | apiReconnect =>
      exfalso
      simp only [step] at h
      unfold reconnectFn at h
      rcases hc : s.isClosed <;> simp only [hc] at h
      · simp only [Bool.false_eq_true, if_false] at h
        unfold disposeSocketFn at h
        rcases hw : s.ws with _ | hd <;>
          simp only [hw, List.nil_append, List.singleton_append,
            List.mem_cons] at h
        · exact handleCloseFn_no_newSocket _ _ _ h
        · rcases h with h | h
          · cases h
          · exact handleCloseFn_no_newSocket _ _ _ h
      · simp at h

theorem handleCloseFn_policy_irrel (o : Options)
    (f : CloseEvt → PolicyRet) (s : State) :
    handleCloseFn { o with shouldReconnect := f } none s
      = handleCloseFn o none s := by
  unfold handleCloseFn
  rcases hc : s.isClosed <;> rcases hw : s.ws with _ | hd <;>
    simp [hc, hw, reachedMax, handleWillReconnectFn, reestablishConnectionFn,
      clampNext, stopReconnectingFn]

theorem lookupReg_setReg_self (r : Registry) (ty : String) (v : List LId) :
    lookupReg (setReg r ty v) ty = some v := by
  induction r with
  | nil => simp [setReg, lookupReg]
  | cons kv rest ih =>
      obtain ⟨k, w⟩ := kv
      by_cases hk : k = ty <;> simp [setReg, lookupReg, hk, ih]

theorem lookupReg_setReg_other (r : Registry) (ty ty' : String)
    (v : List LId) (h : ty' ≠ ty) :
    lookupReg (setReg r ty v) ty' = lookupReg r ty' := by
  induction r with
  | nil => simp [setReg, lookupReg, Ne.symm h]
  | cons kv rest ih =>
      obtain ⟨k, w⟩ := kv
      by_cases hk : k = ty
      · subst hk
        simp [setReg, lookupReg, Ne.symm h]
      · simp [setReg, lookupReg, hk, ih]

theorem runSnapshot_calls (act : LId → Registry → Registry)
    (snap : List LId) (r : Registry) :
    (runSnapshot act snap r).2 = snap.map CallRec.listenerCall := by
  induction snap generalizing r with
  | nil => simp [runSnapshot]
  | cons l ls ih => simp [runSnapshot, ih]

theorem count_filter_ne_self (l : LId) (xs : List LId) :
    (xs.filter fun x => x ≠ l).count l = 0 := by
  rw [List.count_eq_zero]
  simp [List.mem_filter]

theorem count_filter_ne_other (l l' : LId) (h : l' ≠ l) (xs : List LId) :
    (xs.filter fun x => x ≠ l).count l' = xs.count l' := by
  apply List.count_filter
  simp [h]

theorem step_closed_fields (o : Options) (s : State) (i : Input)
    (h1 : s.isClosed = true) (h2 : s.ws = none) (h3 : s.messageBuffer = [])
    (h4 : s.connectTimeoutId = false) (h5 : s.allClearTimeoutId = false)
    (hns : ∀ d, i ≠ Input.apiSend d) :
    classFields (step o s i).1 = classFields s ∧
      countEv .downE (step o s i).2 = 0 ∧
      countEv .closeE (step o s i).2 = 0 := by
  cases i with
  | rawOpen => simp [step, h2, countEv]
  | rawClose e => simp [step, h2, countEv]
  | rawMessage m => simp [step, h2, countEv]
  | rawError => simp [step, h2, countEv]
  | connectTimeoutFire => simp [step, h4, countEv]
  | allClearFire => simp [step, h5, countEv]
  | backoffFire =>
      rcases hp : s.pendingBackoff with _ | n <;>
        simp [step, hp, openNewWebSocketFn, h1, classFields, countEv]
  | policyResolve i b =>
      rcases hg : s.pendingShould[i]? with _ | ev <;>
        simp [step, List.get?_eq_getElem?, hg, h1, classFields, countEv]
  | apiSend d => exact absurd rfl (hns d)
  | apiClose code reason =>
      simp [step, closeFn, disposeSocketFn, shutdownFn, clearAllTimeoutsFn,
        clearAllClearTimeoutFn, clearConnectTimeoutFn, h1, h2, h3, h4, h5,
        classFields, countEv]
  | apiReconnect => simp [step, reconnectFn, h1, countEv, isDispatchOf]

theorem synthClose_facts (o : Options) (s1 : State)
    (hc1 : s1.isClosed = false) :
    countEv .downE (handleCloseFn o none s1).2 = 1 ∧
      (reachedMax o s1.reconnectCount = false →
        scheduledDelays (handleCloseFn o none s1).2 = [s1.nextRetryTime] ∧
          (handleCloseFn o none s1).1.nextRetryTime
            = clampNext o s1.nextRetryTime ∧
          (handleCloseFn o none s1).1.reconnectCount = s1.reconnectCount + 1) ∧
      (reachedMax o s1.reconnectCount = true →
        (handleCloseFn o none s1).1.isClosed = true ∧
          countEv .closeE (handleCloseFn o none s1).2 = 0) := by
  refine ⟨(handleCloseFn_down o none s1 hc1).1, fun hm => ?_, fun hm => ?_⟩
  · obtain ⟨n1, n2, n3, n4, n5, n6⟩ := handleCloseFn_noEvent o s1 hc1 hm
    exact ⟨n2, n3, n4⟩
  · obtain ⟨m1, m2, m3⟩ := handleCloseFn_maxed o none s1 hc1 hm
    exact ⟨m1, m3⟩

/-!
The claims.
-/

/-- C1: for every sequence of failed attempts each followed by an approved
reconnection, with no all-clear reset in between, the scheduled delays
satisfy `delay[0] = 0` and
`delay[i+1] = max(minReconnectDelay, min(delay[i] * reconnectBackoffFactor,
maxReconnectDelay))`; equivalently, `reestablishConnection` schedules the
next attempt after the current `nextRetryTime`, then updates `nextRetryTime`
to the clamped product and increments `reconnectCount` by one. -/
theorem claim_C1 (o : Options) (s : State) (h : s.nextRetryTime = 0) :
    (∀ s' : State, reestablishConnectionFn o s'
        = ({ s' with
              reconnectCount := s'.reconnectCount + 1,
              nextRetryTime :=
                max o.minReconnectDelay
                  (min (s'.nextRetryTime * o.reconnectBackoffFactor)
                    o.maxReconnectDelay),
              pendingBackoff := s'.pendingBackoff + 1 },
           [Output.scheduleRetry s'.nextRetryTime])) ∧
      delaySeq o 0 = 0 ∧
      (∀ n, delaySeq o (n + 1)
          = max o.minReconnectDelay
              (min (delaySeq o n * o.reconnectBackoffFactor)
                o.maxReconnectDelay)) ∧
      (∀ n, ((reestState o)^[n] s).nextRetryTime = delaySeq o n) ∧
      (∀ n, (reestablishConnectionFn o ((reestState o)^[n] s)).2
          = [Output.scheduleRetry (delaySeq o n)]) ∧
      (∀ n, ((reestState o)^[n] s).reconnectCount = s.reconnectCount + n) := by
  refine ⟨?_, rfl, ?_, ?_, ?_, ?_⟩
  · intro s'
    simp [reestablishConnectionFn, clampNext, ratMax_eq_max, ratMin_eq_min]
  · intro n
    simp [delaySeq, clampNext, ratMax_eq_max, ratMin_eq_min]
  · intro n
    exact reestState_nextRetryTime o s n h
  · intro n
    simp [reestablishConnectionFn, reestState_nextRetryTime o s n h]
  · intro n
    induction n with
    | zero => simp
    | succ n ih =>
        rw [Function.iterate_succ_apply']
        simp [reestState, reestablishConnectionFn, ih]
        ring

theorem claim_C1_witness :
    initialState.nextRetryTime = 0 ∧
      ((reestState oApprove)^[3] initialState).nextRetryTime
        = delaySeq oApprove 3 :=
  ⟨rfl, (claim_C1 oApprove initialState rfl).2.2.2.1 3⟩

/-- C2: every `send` made while no live open socket exists appends to the
message buffer; a whole sequence of such sends buffers the payloads in call
order and delivers nothing; on the next successful open every buffered
message is passed to the transport exactly once, in that order, and the
buffer is cleared. -/
theorem claim_C2 (o : Options) (s : State) (ds : List Data)
    (hu : usable s = false) :
    (∀ d, sendFn d s
        = ({ s with messageBuffer := s.messageBuffer ++ [d] }, [])) ∧
      run o s (ds.map Input.apiSend)
        = ({ s with messageBuffer := s.messageBuffer ++ ds }, []) ∧
      (∀ (t : State) (hd : Handle), t.ws = some hd → t.isClosed = false →
        sentData (step o t Input.rawOpen).2 = t.messageBuffer ∧
          (step o t Input.rawOpen).1.messageBuffer = []) := by
  refine ⟨fun d => sendFn_of_not_usable d s hu, run_sends o ds s hu, ?_⟩
  intro t hd hw hc
  obtain ⟨h1, h2, h3, h4, h5, h6⟩ :=
    handleOpenFn_spec (setOpenReadyState t) { hd with readyState := 1 }
      (by simp [setOpenReadyState, hw]) rfl (by simp [setOpenReadyState, hc])
  have hstep : step o t Input.rawOpen = handleOpenFn (setOpenReadyState t) := by
    simp [step, hw]
  rw [hstep, h1, h2]
  have hmb : (setOpenReadyState t).messageBuffer = t.messageBuffer := by
    simp [setOpenReadyState]
  rcases hbo : (setOpenReadyState t).hasBeenOpened <;>
    simp only [hbo, Bool.false_eq_true, if_false, if_true, hmb,
      List.singleton_append, sentData_cons, sentData_map_transportSend,
      List.nil_append, and_true]

theorem claim_C2_witness :
    usable initialState = false ∧
      run oApprove initialState ([10, 20].map Input.apiSend)
        = ({ initialState with
              messageBuffer := initialState.messageBuffer ++ [10, 20] }, []) :=
  ⟨by decide, (claim_C2 oApprove initialState [10, 20] (by decide)).2.1⟩

/-- C3: `down` is dispatched exactly once per handled lost connection and
heads the handler's effects, strictly before any open attempt (a new socket
is only ever created by a later backoff-timer firing); over any whole
execution `open` is dispatched exactly once, on the first successful open
(each successful open dispatches exactly one of `open`/`reopen`, `open` only
the first time); and `close` is dispatched at most once, and only when the
connection has become permanently closed. -/
theorem claim_C3 :
    (∀ (o : Options) (e : Option CloseEvt) (s : State), s.isClosed = false →
        countEv .downE (handleCloseFn o e s).2 = 1 ∧
          (handleCloseFn o e s).2.head?
            = some (Output.dispatchEv .downE e) ∧
          Output.newSocket ∉ (handleCloseFn o e s).2) ∧
      (∀ (o : Options) (s : State) (i : Input),
        Output.newSocket ∈ (step o s i).2 → i = Input.backoffFire) ∧
      (∀ (o : Options) (s : State) (hd : Handle), s.ws = some hd →
        s.isClosed = false →
        countEv .openE (step o s Input.rawOpen).2
            = (if s.hasBeenOpened = true then 0 else 1) ∧
          countEv .reopenE (step o s Input.rawOpen).2
            = (if s.hasBeenOpened = true then 1 else 0) ∧
          (step o s Input.rawOpen).1.hasBeenOpened = true) ∧
      (∀ (o : Options) (l : List Input),
        countEv .openE (runFromInit o l).2
            = (if (runFromInit o l).1.hasBeenOpened = true then 1 else 0) ∧
          countEv .closeE (runFromInit o l).2 ≤ 1 ∧
          ((runFromInit o l).1.isClosed = false →
            countEv .closeE (runFromInit o l).2 = 0)) := by
  refine ⟨handleCloseFn_down, newSocket_only_backoff, ?_, runFromInit_trace⟩
  intro o s hd hw hc
  obtain ⟨h1, h2, h3, h4, h5, h6⟩ :=
    handleOpenFn_spec (setOpenReadyState s) { hd with readyState := 1 }
      (by simp [setOpenReadyState, hw]) rfl (by simp [setOpenReadyState, hc])
  have hstep : step o s Input.rawOpen = handleOpenFn (setOpenReadyState s) := by
    simp [step, hw]
  rw [hstep, h1, h3]
  have hbo : (setOpenReadyState s).hasBeenOpened = s.hasBeenOpened := by
    simp [setOpenReadyState]
  rw [hbo]
  rcases hb2 : s.hasBeenOpened <;>
    simp [countEv_append, countEv_map_transportSend, countEv_cons,
      countEv_nil, isDispatchOf]

theorem claim_C3_witness :
    countEv .downE
        (handleCloseFn oApprove (some 0) (construct oApprove).1).2 = 1 ∧
      countEv .openE (runFromInit oApprove [Input.rawOpen]).2 = 1 := by
  constructor
  · exact (claim_C3.1 oApprove (some 0) (construct oApprove).1 (by decide)).1
  · rw [(claim_C3.2.2.2 oApprove [Input.rawOpen]).1]
    decide

/-- C4: a synchronously denying policy result on a handled remote close
permanently closes the connection with no attempt scheduled; an
asynchronously denying resolution does the same; a resolution arriving after
the connection was independently closed is discarded without any effect on
the class state and with no observable operation; and from a permanently
closed state no connection attempt is ever started or scheduled again. -/
theorem claim_C4 :
    (∀ (o : Options) (ev : CloseEvt) (s : State), s.isClosed = false →
        o.shouldReconnect ev = .sync false →
        (handleCloseFn o (some ev) s).1.isClosed = true ∧
          countAttempts (handleCloseFn o (some ev) s).2 = 0) ∧
      (∀ (o : Options) (s : State) (i : ℕ) (ev : CloseEvt),
        s.pendingShould[i]? = some ev → s.isClosed = false →
        (step o s (.policyResolve i false)).1.isClosed = true ∧
          countAttempts (step o s (.policyResolve i false)).2 = 0) ∧
      (∀ (o : Options) (s : State) (i : ℕ) (b : Bool), s.isClosed = true →
        classFields (step o s (.policyResolve i b)).1 = classFields s ∧
          (step o s (.policyResolve i b)).2 = []) ∧
      (∀ (o : Options) (s : State) (l : List Input), s.isClosed = true →
        (run o s l).1.isClosed = true ∧ countAttempts (run o s l).2 = 0) := by
  refine ⟨?_, ?_, ?_, ?_⟩
  · intro o ev s hc hp
    exact ⟨(handleCloseFn_sync_false o ev s hc hp).1,
      (handleCloseFn_sync_false o ev s hc hp).2.1⟩
  · intro o s i ev hg hc
    simp [step, List.get?_eq_getElem?, hg, hc, handleWillReconnectFn,
      stopReconnectingFn, shutdownFn, clearAllTimeoutsFn,
      clearAllClearTimeoutFn, clearConnectTimeoutFn, countAttempts,
      isAttempt]
  · intro o s i b hc
    rcases hg : s.pendingShould[i]? with _ | ev <;>
      simp [step, List.get?_eq_getElem?, hg, hc, classFields]
  · intro o s l hc
    exact ⟨(run_of_closed o l s hc).1, (run_of_closed o l s hc).2.1⟩

theorem claim_C4_witness :
    (handleCloseFn oDeny (some 0) (construct oDeny).1).1.isClosed = true ∧
      (run oDeny sDenied [Input.backoffFire]).1.isClosed = true ∧
      countAttempts (run oDeny sDenied [Input.backoffFire]).2 = 0 := by
  refine ⟨(claim_C4.1 oDeny 0 (construct oDeny).1 (by decide) (by decide)).1,
    ?_, ?_⟩
  · exact (claim_C4.2.2.2 oDeny sDenied [Input.backoffFire] (by decide)).1
  · exact (claim_C4.2.2.2 oDeny sDenied [Input.backoffFire] (by decide)).2

/-- C5: once `reconnectCount` has reached `maxReconnectAttempts` when a
close is handled, the connection permanently closes with no attempt
scheduled, whatever the policy would say; and in the concrete scenario
(min 1, max 9, factor 2, cap 7, every attempt failing immediately) exactly
the delays 0, 1, 2, 4, 8, 9, 9 are scheduled, the connection ends
permanently closed, and no further attempt is ever scheduled afterwards. -/
theorem claim_C5 :
    (∀ (o : Options) (e : Option CloseEvt) (s : State), s.isClosed = false →
        reachedMax o s.reconnectCount = true →
        (handleCloseFn o e s).1.isClosed = true ∧
          countAttempts (handleCloseFn o e s).2 = 0) ∧
      scheduledDelays (runFromInit oScenario traceScenario).2
        = [0, 1, 2, 4, 8, 9, 9] ∧
      (runFromInit oScenario traceScenario).1.isClosed = true ∧
      (∀ l : List Input,
        countAttempts
          (run oScenario (runFromInit oScenario traceScenario).1 l).2 = 0) := by
  have hrun : scheduledDelays (runFromInit oScenario traceScenario).2
        = [0, 1, 2, 4, 8, 9, 9] ∧
      (runFromInit oScenario traceScenario).1.isClosed = true := by
    norm_num [runFromInit, run, construct, step, openNewWebSocketFn,
      initialState, handleCloseFn, handleWillReconnectFn,
      reestablishConnectionFn, stopReconnectingFn, shutdownFn,
      clearAllTimeoutsFn, clearAllClearTimeoutFn, clearConnectTimeoutFn,
      reachedMax, clampNext, ratMax, ratMin, oScenario, traceScenario,
      newHandle, scheduledDelays, disposeSocketFn, List.filterMap_cons]
  refine ⟨?_, hrun.1, hrun.2, ?_⟩
  · intro o e s hc hm
    exact ⟨(handleCloseFn_maxed o e s hc hm).1,
      (handleCloseFn_maxed o e s hc hm).2.1⟩
  · intro l
    exact (run_of_closed oScenario l (runFromInit oScenario traceScenario).1
      hrun.2).2.1

theorem claim_C5_witness :
    (handleCloseFn oScenario (some 0)
        { initialState with ws := some newHandle,
                            reconnectCount := 7 }).1.isClosed = true ∧
      countAttempts
        (handleCloseFn oScenario (some 0)
          { initialState with ws := some newHandle,
                              reconnectCount := 7 }).2 = 0 :=
  claim_C5.1 oScenario (some 0)
    { initialState with ws := some newHandle, reconnectCount := 7 }
    (by decide) (by decide)

/-- C6, counterexample: from the same freshly constructed state under a
policy that synchronously denies reconnection, a genuine remote close
permanently closes the connection with nothing scheduled, while a connect
timeout schedules a new attempt — the timeout is not fed through the same
path including policy consultation. -/
theorem claim_C6_counterexample :
    (step oDeny (construct oDeny).1 (Input.rawClose 0)).1.isClosed = true ∧
      scheduledDelays
        (step oDeny (construct oDeny).1 (Input.rawClose 0)).2 = [] ∧
      (step oDeny (construct oDeny).1 Input.connectTimeoutFire).1.isClosed
        = false ∧
      scheduledDelays
        (step oDeny (construct oDeny).1 Input.connectTimeoutFire).2
        = [0] := by
  refine ⟨by decide, by decide, by decide, ?_⟩
  norm_num [step, construct, openNewWebSocketFn, initialState,
    connectTimeoutCb, clearConnectTimeoutFn, clearAllClearTimeoutFn,
    clearAllTimeoutsFn, disposeSocketFn, handleCloseFn, stopReconnectingFn,
    shutdownFn, handleWillReconnectFn, reestablishConnectionFn, reachedMax,
    oDeny, scheduledDelays, newHandle, List.filterMap_cons]

/-- C6, amended: a connect timeout clears the watchdog, disposes the
stalled handle and feeds the result into the same `handleClose` path with
no close event; the outcome is independent of the reconnection policy (the
policy is never consulted), and — when the connection is not closed — it
dispatches `down` once and, below the attempt cap, schedules the next
attempt through the same backoff update as an approved remote close, while
at the cap it closes permanently without dispatching `close`. -/
theorem claim_C6_amended (o : Options) (s : State)
    (hf : s.connectTimeoutId = true) :
    step o s Input.connectTimeoutFire
        = (let s1 := clearConnectTimeoutFn s
           let p := disposeSocketFn none none s1
           let q := handleCloseFn o none p.1
           (q.1, p.2 ++ q.2)) ∧
      (∀ f, step { o with shouldReconnect := f } s Input.connectTimeoutFire
          = step o s Input.connectTimeoutFire) ∧
      (s.isClosed = false →
        countEv .downE (step o s Input.connectTimeoutFire).2 = 1 ∧
          (reachedMax o s.reconnectCount = false →
            scheduledDelays (step o s Input.connectTimeoutFire).2
                = [s.nextRetryTime] ∧
              (step o s Input.connectTimeoutFire).1.nextRetryTime
                = clampNext o s.nextRetryTime ∧
              (step o s Input.connectTimeoutFire).1.reconnectCount
                = s.reconnectCount + 1) ∧
          (reachedMax o s.reconnectCount = true →
            (step o s Input.connectTimeoutFire).1.isClosed = true ∧
              countEv .closeE (step o s Input.connectTimeoutFire).2 = 0)) := by
  refine ⟨by simp [step, hf, connectTimeoutCb], fun f => ?_, fun hc => ?_⟩
  · simp only [step, hf, if_true]
    unfold connectTimeoutCb
    simp only [handleCloseFn_policy_irrel]
  · simp only [step, hf, if_true]
    unfold connectTimeoutCb
    rcases hw : s.ws with _ | hd
    · simp only [clearConnectTimeoutFn, disposeSocketFn, hw, List.nil_append]
      obtain ⟨f1, f2, f3⟩ :=
        synthClose_facts o { s with connectTimeoutId := false, ws := none }
          (by simp [hc])
      refine ⟨by simpa using f1, fun hm => ?_, fun hm => ?_⟩
      · obtain ⟨g1, g2, g3⟩ := f2 (by simpa using hm)
        exact ⟨by simpa using g1, by simpa using g2, by simpa using g3⟩
      · obtain ⟨g1, g2⟩ := f3 (by simpa using hm)
        exact ⟨g1, by simpa using g2⟩
    · simp only [clearConnectTimeoutFn, disposeSocketFn, hw,
        List.singleton_append]
      obtain ⟨f1, f2, f3⟩ :=
        synthClose_facts o { s with connectTimeoutId := false, ws := none }
          (by simp [hc])
      refine ⟨?_, fun hm => ?_, fun hm => ?_⟩
      · simpa [countEv_cons, isDispatchOf] using f1
      · obtain ⟨g1, g2, g3⟩ := f2 (by simpa using hm)
        refine ⟨?_, by simpa using g2, by simpa using g3⟩
        simpa [scheduledDelays_cons] using g1
      · obtain ⟨g1, g2⟩ := f3 (by simpa using hm)
        exact ⟨g1, by simpa [countEv_cons, isDispatchOf] using g2⟩

theorem claim_C6_amended_witness :
    countEv .downE
        (step oApprove (construct oApprove).1 Input.connectTimeoutFire).2
        = 1 ∧
      scheduledDelays
          (step oApprove (construct oApprove).1 Input.connectTimeoutFire).2
        = [(construct oApprove).1.nextRetryTime] := by
  have h := claim_C6_amended oApprove (construct oApprove).1 (by decide)
  have h3 := h.2.2 (by decide)
  exact ⟨h3.1, (h3.2.1 (by decide)).1⟩

/-- C7: calling `reconnect()` on a permanently closed connection throws
synchronously and changes nothing; on a live connection it disposes the
current handle with the synthetic client-requested close reason and
re-enters the `handleClose` path with no close event. -/
theorem claim_C7 (o : Options) (s : State) :
    (s.isClosed = true →
        step o s Input.apiReconnect = (s, [Output.throwClosed])) ∧
      (s.isClosed = false →
        step o s Input.apiReconnect
          = (let p := disposeSocketFn (some 1000)
                (some "Client requested reconnect.") s
             let q := handleCloseFn o none p.1
             (q.1, p.2 ++ q.2))) ∧
      (∀ hd : Handle, s.isClosed = false → s.ws = some hd →
        (step o s Input.apiReconnect).2.head?
          = some (Output.wsClose (some 1000)
              (some "Client requested reconnect."))) := by
  refine ⟨fun h => by simp [step, reconnectFn, h],
    fun h => by simp [step, reconnectFn, h], ?_⟩
  intro hd h hw
  simp [step, reconnectFn, h, disposeSocketFn, hw]

theorem claim_C7_witness :
    step oDeny sDenied Input.apiReconnect = (sDenied, [Output.throwClosed]) ∧
      (step oApprove (construct oApprove).1 Input.apiReconnect).2.head?
        = some (Output.wsClose (some 1000)
            (some "Client requested reconnect.")) :=
  ⟨(claim_C7 oDeny sDenied).1 (by decide),
   (claim_C7 oApprove (construct oApprove).1).2.2 newHandle (by decide)
     (by decide)⟩

/-- C8, counterexample: after terminal closure the state is not inert —
`send` on a permanently closed connection appends to the message buffer
(a field mutates), and a backoff timer scheduled before a `close()` call
remains pending after terminal closure. -/
theorem claim_C8_counterexample :
    sDenied.isClosed = true ∧
      (step oDeny sDenied (Input.apiSend 7)).1.messageBuffer = [7] ∧
      sDenied.messageBuffer = [] ∧
      sClosedPending.isClosed = true ∧
      0 < sClosedPending.pendingBackoff := by
  refine ⟨by decide, by decide, by decide, by decide, by decide⟩

/-- C8, amended: once permanently closed (in the state `shutdown`
establishes: no handle, empty buffer, both cancellable timers cleared),
every input other than a `send` leaves every class field unchanged;
`shutdown` itself cancels the connect-timeout and all-clear timers and
clears the buffer, but does not cancel pending backoff timers; a `send`
after closure still appends to the message buffer; and a pending backoff
timer firing after closure only consumes the timer, changing no class
field. -/
theorem claim_C8_amended (o : Options) (s : State)
    (h1 : s.isClosed = true) (h2 : s.ws = none) (h3 : s.messageBuffer = [])
    (h4 : s.connectTimeoutId = false) (h5 : s.allClearTimeoutId = false) :
    (∀ i : Input, (∀ d, i ≠ Input.apiSend d) →
        classFields (step o s i).1 = classFields s) ∧
      (∀ d, (step o s (Input.apiSend d)).1.messageBuffer
          = s.messageBuffer ++ [d]) ∧
      (∀ t : State, (shutdownFn t).isClosed = true ∧
        (shutdownFn t).connectTimeoutId = false ∧
        (shutdownFn t).allClearTimeoutId = false ∧
        (shutdownFn t).messageBuffer = [] ∧
        (shutdownFn t).pendingBackoff = t.pendingBackoff) ∧
      (0 < s.pendingBackoff →
        step o s Input.backoffFire
          = ({ s with pendingBackoff := s.pendingBackoff - 1 }, [])) := by
  refine ⟨fun i hi => (step_closed_fields o s i h1 h2 h3 h4 h5 hi).1,
    ?_, ?_, ?_⟩
  · intro d
    simp [step, sendFn, h2]
  · intro t
    simp [shutdownFn, clearAllTimeoutsFn, clearAllClearTimeoutFn,
      clearConnectTimeoutFn]
  · intro hp
    have hne : ¬s.pendingBackoff = 0 := by omega
    simp [step, hne, openNewWebSocketFn, h1]

theorem claim_C8_amended_witness :
    classFields (step oDeny sDenied Input.rawOpen).1 = classFields sDenied ∧
      (step oDeny sDenied (Input.apiSend 3)).1.messageBuffer
        = sDenied.messageBuffer ++ [3] := by
  have h := claim_C8_amended oDeny sDenied (by decide) (by decide)
    (by decide) (by decide) (by decide)
  exact ⟨h.1 Input.rawOpen (by intro d; simp), h.2.1 3⟩

/-- C9: a dispatch invokes the single-slot callback for the name first (if
set), then exactly the snapshot of the registry entry for that name taken
when the iteration begins, in registration order (`addEventListener`
appends); whatever registry mutations — removals included — the invoked
listeners perform during the dispatch, the sequence of invocations of that
same dispatch is unchanged. -/
theorem claim_C9 :
    (∀ (act : LId → Registry → Registry) (sl : Slots) (ty : String)
        (r : Registry),
        (dispatchEventOfTypeFn act sl ty r).2
          = (match slotFor sl ty with
             | some _ => [CallRec.slotCall ty]
             | none => []) ++
            (match lookupReg
                (match slotFor sl ty with
                 | some c => act c r
                 | none => r) ty with
             | some snap => snap.map CallRec.listenerCall
             | none => [])) ∧
      (∀ (act act' : LId → Registry → Registry) (sl : Slots) (ty : String)
        (r : Registry), slotFor sl ty = none →
        (dispatchEventOfTypeFn act sl ty r).2
          = (dispatchEventOfTypeFn act' sl ty r).2) ∧
      (∀ (r : Registry) (ty : String) (l : LId),
        lookupReg (addEventListenerFn r ty l) ty
          = some ((lookupReg r ty).getD [] ++ [l])) := by
  have main : ∀ (act : LId → Registry → Registry) (sl : Slots) (ty : String)
      (r : Registry),
      (dispatchEventOfTypeFn act sl ty r).2
        = (match slotFor sl ty with
           | some _ => [CallRec.slotCall ty]
           | none => []) ++
          (match lookupReg
              (match slotFor sl ty with
               | some c => act c r
               | none => r) ty with
           | some snap => snap.map CallRec.listenerCall
           | none => []) := by
    intro act sl ty r
    unfold dispatchEventOfTypeFn
    rcases hs : slotFor sl ty with _ | c <;> simp only [hs]
    · rcases hl : lookupReg r ty with _ | snap <;>
        simp [hl, runSnapshot_calls]
    · rcases hl : lookupReg (act c r) ty with _ | snap <;>
        simp [hl, runSnapshot_calls]
  refine ⟨main, ?_, ?_⟩
  · intro act act' sl ty r hs
    rw [main act sl ty r, main act' sl ty r, hs]
  · intro r ty l
    unfold addEventListenerFn
    rcases hl : lookupReg r ty with _ | xs <;>
      simp [hl, lookupReg_setReg_self]

theorem claim_C9_witness :
    (dispatchEventOfTypeFn (fun l r => removeEventListenerFn r "message" l)
        ⟨none, none, none, none, none, none⟩ "message"
        [("message", [4, 5])]).2
      = (dispatchEventOfTypeFn (fun _ r => r)
          ⟨none, none, none, none, none, none⟩ "message"
          [("message", [4, 5])]).2 :=
  claim_C9.2.1 _ _ _ _ _ (by decide)

/-- C10: `removeEventListener(type, l)` removes every occurrence of `l`
registered for `type` (even when added multiple times), leaving the entries
of every other event name and the occurrence counts of every other listener
of the same name unchanged. -/
theorem claim_C10 (r : Registry) (ty : String) (l : LId) :
    lookupReg (removeEventListenerFn r ty l) ty
        = (lookupReg r ty).map (fun xs => xs.filter fun x => x ≠ l) ∧
      (∀ ty', ty' ≠ ty →
        lookupReg (removeEventListenerFn r ty l) ty' = lookupReg r ty') ∧
      ((lookupReg (removeEventListenerFn r ty l) ty).getD []).count l = 0 ∧
      (∀ l', l' ≠ l →
        ((lookupReg (removeEventListenerFn r ty l) ty).getD []).count l'
          = ((lookupReg r ty).getD []).count l') := by
  have h1 : lookupReg (removeEventListenerFn r ty l) ty
      = (lookupReg r ty).map (fun xs => xs.filter fun x => x ≠ l) := by
    unfold removeEventListenerFn
    rcases hl : lookupReg r ty with _ | xs <;>
      simp [hl, lookupReg_setReg_self]
  have h2 : ∀ ty', ty' ≠ ty →
      lookupReg (removeEventListenerFn r ty l) ty' = lookupReg r ty' := by
    intro ty' hne
    unfold removeEventListenerFn
    rcases hl : lookupReg r ty with _ | xs <;>
      simp [hl, lookupReg_setReg_other _ _ _ _ hne]
  refine ⟨h1, h2, ?_, ?_⟩
  · rcases hl : lookupReg r ty with _ | xs
    · rw [h1, hl]
      simp
    · rw [h1, hl, Option.map_some', Option.getD_some]
      exact count_filter_ne_self l xs
  · intro l' hne
    rcases hl : lookupReg r ty with _ | xs
    · rw [h1, hl]
      rfl
    · rw [h1, hl, Option.map_some', Option.getD_some]
      exact count_filter_ne_other l l' hne xs

theorem claim_C10_witness :
    lookupReg (removeEventListenerFn [("close", [5, 7, 5])] "close" 5)
        "close" = some [7] ∧
      lookupReg (removeEventListenerFn [("close", [5, 7, 5])] "close" 5)
        "open" = none := by
  have h := claim_C10 [("close", [5, 7, 5])] "close" 5
  constructor
  · rw [h.1]
    decide
  · rw [h.2.1 "open" (by decide)]
    decide

end SturdyWs
